import Mathlib

/-!
Shallow embedding of `contrib/auto_explain/auto_explain.c` (OpenTenBase).

The extension wraps the four executor phases (Start, Run, Finish, End).
Global mutable state of the C module — `nesting_level`, `current_query_sampled`,
the four saved hook slots — is made explicit: every hook function takes the
relevant pieces of state as arguments and returns the updated pieces.
C `double` arithmetic in this file is exact at every value the claims touch,
so it is modelled over `ℚ`; C `int` is modelled as `Int`; the instrumentation
bitmask as `Nat` with `|||`.
-/

namespace AutoExplain

/-- EXPLAIN output formats, from `commands/explain.h` (`format_options` table
at lines 47-53 maps text/xml/json/yaml onto these). -/
inductive ExplainFormat where
  | text
  | xml
  | json
  | yaml
deriving DecidableEq, Repr

/-- Bit for `INSTRUMENT_TIMER` from `executor/instrument.h`. -/
def INSTRUMENT_TIMER : Nat := 1

/-- Bit for `INSTRUMENT_ROWS` from `executor/instrument.h`. -/
def INSTRUMENT_ROWS : Nat := 2

/-- Bit for `INSTRUMENT_BUFFERS` from `executor/instrument.h`. -/
def INSTRUMENT_BUFFERS : Nat := 4

/-- `MAX_RANDOM_VALUE` (PostgreSQL defines it as `0x7FFFFFFF`); `random()`
draws uniformly from `0 .. MAX_RANDOM_VALUE` inclusive. -/
def MAX_RANDOM_VALUE : Nat := 2147483647

/-- The module's GUC configuration variables (file lines 28-44).  They are
read-only during execution, so they are grouped in one record passed to each
hook. `sample_rate` is a C double in [0,1]; at the values the claims exercise
(0.0 and 1.0) double arithmetic is exact, so `ℚ` is a faithful model. -/
structure AEConfig where
  log_min_duration : Int
  log_analyze : Bool
  log_verbose : Bool
  log_buffers : Bool
  log_triggers : Bool
  log_timing : Bool
  log_format : ExplainFormat
  log_nested_statements : Bool
  sample_rate : ℚ
deriving DecidableEq, Repr

/-- Initial value of the static `current_query_sampled` (line 68:
`static bool current_query_sampled = true;`). -/
def initial_current_query_sampled : Bool := true

/-- Initial value of the static `nesting_level` (line 57). -/
def initial_nesting_level : Int := 0

/-- The `auto_explain_enabled()` macro (lines 71-73):
`auto_explain_log_min_duration >= 0 && (nesting_level == 0 || auto_explain_log_nested_statements)`. -/
def auto_explain_enabled (cfg : AEConfig) (nesting_level : Int) : Bool :=
  decide (0 ≤ cfg.log_min_duration) &&
    (decide (nesting_level = 0) || cfg.log_nested_statements)

/-- The comparison `random() < auto_explain_sample_rate * MAX_RANDOM_VALUE`
(lines 237-238), with `r` the value returned by `random()`.  The C comparison
promotes the `long` to `double`; both sides are exact here. -/
def sampling_draw (cfg : AEConfig) (r : Nat) : Bool :=
  decide ((r : ℚ) < cfg.sample_rate * (MAX_RANDOM_VALUE : ℚ))

/-- Effects of one `explain_ExecutorStart` call on module/query state:
the value of `current_query_sampled` after the call, the query's
`instrument_options` after the call, and whether a `totaltime` instrumentation
object was allocated (lines 266-273). -/
structure StartEffects where
  current_query_sampled : Bool
  instrument_options : Nat
  totaltime_allocated : Bool
deriving DecidableEq, Repr

/-- `explain_ExecutorStart` (lines 229-275).  Inputs: the configuration, the
current `nesting_level`, the incoming `current_query_sampled` flag, the value
`r` drawn by `random()` (used only when the sampling branch fires),
`explain_only` = `(eflags & EXEC_FLAG_EXPLAIN_ONLY) != 0`, the query's
incoming `instrument_options` bitmask, and whether `queryDesc->totaltime`
is already non-NULL.  The delegated call to the previous hook / standard
executor does not touch this module's state, so it needs no parameter. -/
def explain_ExecutorStart (cfg : AEConfig) (nesting_level : Int)
    (current_query_sampled : Bool) (r : Nat) (explain_only : Bool)
    (instrument_options : Nat) (totaltime_present : Bool) : StartEffects :=
  let sampled :=
    if 0 ≤ cfg.log_min_duration ∧ nesting_level = 0 then
      sampling_draw cfg r
    else current_query_sampled
  let io :=
    if auto_explain_enabled cfg nesting_level && sampled then
      if cfg.log_analyze && !explain_only then
        let io1 :=
          if cfg.log_timing then instrument_options ||| INSTRUMENT_TIMER
          else instrument_options ||| INSTRUMENT_ROWS
        if cfg.log_buffers then io1 ||| INSTRUMENT_BUFFERS else io1
      else instrument_options
    else instrument_options
  let alloc :=
    (auto_explain_enabled cfg nesting_level && sampled) && !totaltime_present
  ⟨sampled, io, alloc⟩

/-- `explain_ExecutorRun` (lines 280-299): increment `nesting_level`, run the
delegated call inside PG_TRY, decrement on both the success path and the
PG_CATCH path, and on the catch path PG_RE_THROW the original error.  The
delegated call's outcome is the `delegate` argument; the function returns the
outcome it propagates together with the final `nesting_level`. -/
def explain_ExecutorRun {ε : Type} (delegate : Except ε Unit)
    (nesting_level : Int) : Except ε Unit × Int :=
  let lvl := nesting_level + 1
  match delegate with
  | Except.ok u => (Except.ok u, lvl - 1)
  | Except.error e => (Except.error e, lvl - 1)

/-- `explain_ExecutorFinish` (lines 304-322): identical depth bracketing to
`explain_ExecutorRun`, duplicated in the C source. -/
def explain_ExecutorFinish {ε : Type} (delegate : Except ε Unit)
    (nesting_level : Int) : Except ε Unit × Int :=
  let lvl := nesting_level + 1
  match delegate with
  | Except.ok u => (Except.ok u, lvl - 1)
  | Except.error e => (Except.error e, lvl - 1)

/-- The option fields of the `ExplainState` that `explain_ExecutorEnd` fills
in (lines 346-351). -/
structure ExplainState where
  analyze : Bool
  verbose : Bool
  buffers : Bool
  timing : Bool
  summary : Bool
  format : ExplainFormat
deriving DecidableEq, Repr

/-- Lines 346-351: `es->analyze = (queryDesc->instrument_options &&
auto_explain_log_analyze)` and the dependent option assignments.  The C `&&`
treats the `instrument_options` bitmask as a boolean, i.e. tests it against
zero. -/
def build_explain_options (cfg : AEConfig) (instrument_options : Nat) :
    ExplainState :=
  let analyze := decide (instrument_options ≠ 0) && cfg.log_analyze
  { analyze := analyze
    verbose := cfg.log_verbose
    buffers := analyze && cfg.log_buffers
    timing := analyze && cfg.log_timing
    summary := analyze
    format := cfg.log_format }

/-- Lines 361-362: remove the last character of the rendered buffer when the
buffer is non-empty and that character is a newline. -/
def trim_last_newline (s : List Char) : List Char :=
  if 0 < s.length ∧ s.getLast? = some '\n' then s.dropLast else s

/-- Lines 365-369: when the format is JSON, overwrite the first byte of the
buffer with a brace and the last byte with a closing brace
(`es->str->data[0] = ...; es->str->data[es->str->len - 1] = ...`). -/
def json_brace_fixup (s : List Char) : List Char :=
  (s.set 0 '{').set (s.length - 1) '}'

/-- The log record emitted by `ereport` at lines 377-380: the elapsed
milliseconds and the post-processed plan text, with the ExplainState options
that produced it. -/
structure Report where
  msec : ℚ
  es : ExplainState
  plan_text : List Char
deriving DecidableEq, Repr

/-- `explain_ExecutorEnd` (lines 327-390), up to the final delegation (which
touches no module state).  Inputs: the configuration, `nesting_level`,
`current_query_sampled`, whether `queryDesc->totaltime` is non-NULL, the
accumulated `totaltime->total` in seconds after `InstrEndLoop`, the query's
`instrument_options` bitmask, and the text the external renderer put in
`es->str` (lines 353-358).  Returns the emitted log record, or `none` when
the gates suppress emission. -/
def explain_ExecutorEnd (cfg : AEConfig) (nesting_level : Int)
    (current_query_sampled : Bool) (totaltime_present : Bool)
    (total_seconds : ℚ) (instrument_options : Nat)
    (rendered : List Char) : Option Report :=
  if totaltime_present && auto_explain_enabled cfg nesting_level &&
      current_query_sampled then
    let msec := total_seconds * 1000
    if (cfg.log_min_duration : ℚ) ≤ msec then
      let es := build_explain_options cfg instrument_options
      let txt := trim_last_newline rendered
      let txt :=
        if cfg.log_format = ExplainFormat.json then json_brace_fixup txt
        else txt
      some { msec := msec, es := es, plan_text := txt }
    else none
  else none

/-- The four global executor hook slots (a NULL slot is `none`); `α` is the
type of foreign handler values another observer may have installed. -/
structure HookSlots (α : Type) where
  ExecutorStart_hook : Option α
  ExecutorRun_hook : Option α
  ExecutorFinish_hook : Option α
  ExecutorEnd_hook : Option α
deriving DecidableEq, Repr

/-- The four `prev_*` statics (lines 61-64) as captured at load time. -/
structure SavedHooks (α : Type) where
  prev_ExecutorStart : Option α
  prev_ExecutorRun : Option α
  prev_ExecutorFinish : Option α
  prev_ExecutorEnd : Option α
deriving DecidableEq, Repr

/-- This extension's own four handler values (the addresses of
`explain_ExecutorStart` etc. that `_PG_init` installs). -/
structure AEHandlers (α : Type) where
  hStart : α
  hRun : α
  hFinish : α
  hEnd : α
deriving DecidableEq, Repr

/-- The hook-installation part of `_PG_init` (lines 202-210): capture each
slot into the corresponding `prev_*` static, then install this extension's
handler.  Returns the new slots and the captured values. -/
def PG_init {α : Type} (h : AEHandlers α) (g : HookSlots α) :
    HookSlots α × SavedHooks α :=
  (⟨some h.hStart, some h.hRun, some h.hFinish, some h.hEnd⟩,
   ⟨g.ExecutorStart_hook, g.ExecutorRun_hook,
    g.ExecutorFinish_hook, g.ExecutorEnd_hook⟩)

/-- `_PG_fini` (lines 216-224): write each captured `prev_*` value back into
its global slot. -/
def PG_fini {α : Type} (saved : SavedHooks α) : HookSlots α :=
  ⟨saved.prev_ExecutorStart, saved.prev_ExecutorRun,
   saved.prev_ExecutorFinish, saved.prev_ExecutorEnd⟩

/-- One nested `explain_ExecutorStart` invocation's per-call inputs, for
stating flag propagation across a sequence of nested statements. -/
structure StartCall where
  depth : Int
  r : Nat
  explain_only : Bool
  instrument_options : Nat
  totaltime_present : Bool
deriving DecidableEq, Repr

/-- Value of `current_query_sampled` after a sequence of
`explain_ExecutorStart` invocations, threading the flag through. -/
def nested_starts_flag (cfg : AEConfig) (flag : Bool)
    (calls : List StartCall) : Bool :=
  calls.foldl
    (fun f c =>
      (explain_ExecutorStart cfg c.depth f c.r c.explain_only
        c.instrument_options c.totaltime_present).current_query_sampled)
    flag

/-- Concrete configuration: logging on (`log_min_duration = 0`),
`sample_rate = 1.0`, everything else at its C default. -/
def cfg_rate1 : AEConfig :=
  ⟨0, false, false, false, false, true, ExplainFormat.text, false, 1⟩

/-- Concrete configuration: logging on, `sample_rate = 0.0`. -/
def cfg_rate0 : AEConfig :=
  ⟨0, false, false, false, false, true, ExplainFormat.text, false, 0⟩

/-- Concrete configuration: logging on, defaults otherwise. -/
def cfg_on : AEConfig :=
  ⟨0, false, false, false, false, true, ExplainFormat.text, false, 1⟩

/-- Concrete configuration: logging off (`log_min_duration = -1`, the C
default). -/
def cfg_off : AEConfig :=
  ⟨-1, false, false, false, false, true, ExplainFormat.text, false, 1⟩

/-- Concrete configuration: logging on with `log_analyze` and `log_buffers`
set but `log_nested_statements` off. -/
def cfg_nested_off : AEConfig :=
  ⟨0, true, false, true, false, true, ExplainFormat.text, false, 1⟩

/-- Concrete configuration: `log_min_duration = 100` ms. -/
def cfg_min100 : AEConfig :=
  ⟨100, false, false, false, false, true, ExplainFormat.text, false, 1⟩

/-- Concrete configuration: JSON format with every logging flag set. -/
def cfg_json : AEConfig :=
  ⟨0, true, true, true, true, true, ExplainFormat.json, false, 1⟩

/-- The record `explain_ExecutorEnd cfg_json 0 true true 1 0 "[]\n"` emits
(instrumentation bitmask zero, so `analyze` is off). -/
def rep_json : Report :=
  { msec := 1000
    es := ⟨false, true, false, false, false, ExplainFormat.json⟩
    plan_text := ['{', '}'] }

/-- The record `explain_ExecutorEnd cfg_json 0 true true 1 1 "[]\n"` emits
(instrumentation bitmask non-zero, so `analyze` is on). -/
def rep_analyze : Report :=
  { msec := 1000
    es := ⟨true, true, true, true, true, ExplainFormat.json⟩
    plan_text := ['{', '}'] }

/- Helper lemmas (not claim theorems). -/

/-- Helper for flag propagation: one `explain_ExecutorStart` at positive
nesting depth returns the incoming flag (the assignment at lines 236-238 is
guarded by `nesting_level == 0`). -/
theorem start_at_positive_depth_keeps_flag (cfg : AEConfig) (nesting_level : Int)
    (h : 0 < nesting_level) (flag : Bool) (r : Nat) (explain_only : Bool)
    (io : Nat) (totaltime_present : Bool) :
    (explain_ExecutorStart cfg nesting_level flag r explain_only io
        totaltime_present).current_query_sampled = flag := by
  have hne : ¬ (0 ≤ cfg.log_min_duration ∧ nesting_level = 0) := by
    rintro ⟨-, h0⟩; omega
  simp [explain_ExecutorStart, hne]

/-- Helper: any sequence of `explain_ExecutorStart` invocations all at
positive nesting depth leaves `current_query_sampled` at its incoming
value. -/
theorem nested_starts_flag_const (cfg : AEConfig) (flag : Bool)
    (calls : List StartCall) (hcalls : ∀ c ∈ calls, 0 < c.depth) :
    nested_starts_flag cfg flag calls = flag := by
  induction calls generalizing flag with
  | nil => rfl
  | cons c cs ih =>
    rw [nested_starts_flag, List.foldl_cons,
      start_at_positive_depth_keeps_flag cfg c.depth (hcalls c (by simp)) flag]
    exact ih flag fun d hd => hcalls d (by simp [hd])

/-- Helper: when `explain_ExecutorEnd` emits a record, the record's fields
are the elapsed milliseconds, the ExplainState options built at lines
346-351, and the post-processed renderer output of lines 360-369. -/
theorem explain_ExecutorEnd_some_elim (cfg : AEConfig) (nesting_level : Int)
    (flag totaltime_present : Bool) (total : ℚ) (io : Nat)
    (rendered : List Char) (rep : Report)
    (h : explain_ExecutorEnd cfg nesting_level flag totaltime_present total io
        rendered = some rep) :
    rep.msec = total * 1000 ∧
    rep.es = build_explain_options cfg io ∧
    rep.plan_text =
      (if cfg.log_format = ExplainFormat.json then
        json_brace_fixup (trim_last_newline rendered)
      else trim_last_newline rendered) := by
  simp only [explain_ExecutorEnd] at h
  split at h
  · split at h
    · obtain rfl := (Option.some.inj h).symm
      exact ⟨rfl, rfl, rfl⟩
    · exact absurd h (by simp)
  · exact absurd h (by simp)

/- Claim theorems. -/

/-- C1: For every Run and every Finish phase invocation, `nesting_level`
after the call returns (or after the error propagates) equals its value
before the call, whether the delegated call succeeds or fails; on failure
the original error is re-signaled unchanged. -/
theorem run_finish_restore_depth_and_reraise {ε : Type} (delegate : Except ε Unit)
    (nesting_level : Int) :
    (explain_ExecutorRun delegate nesting_level).2 = nesting_level ∧
    (explain_ExecutorRun delegate nesting_level).1 = delegate ∧
    (explain_ExecutorFinish delegate nesting_level).2 = nesting_level ∧
    (explain_ExecutorFinish delegate nesting_level).1 = delegate := by
  cases delegate <;> simp [explain_ExecutorRun, explain_ExecutorFinish]

/-- C2 (code bug): with `sample_rate = 1.0`, logging enabled and nesting
depth 0, the draw `r = MAX_RANDOM_VALUE` — a possible return value of
`random()` — makes the comparison `random() < sample_rate * MAX_RANDOM_VALUE`
false, so the statement is NOT sampled, contradicting the spec's
"`sampleRate == 1.0` must always sample"; the next smaller draw does
sample, pinning the off-by-one at the top boundary. -/
theorem sample_rate_one_misses_max_draw :
    0 ≤ cfg_rate1.log_min_duration ∧ cfg_rate1.sample_rate = 1 ∧
    (explain_ExecutorStart cfg_rate1 0 initial_current_query_sampled
        MAX_RANDOM_VALUE false 0 false).current_query_sampled = false ∧
    sampling_draw cfg_rate1 (MAX_RANDOM_VALUE - 1) = true := by
  refine ⟨by decide, rfl, ?_, ?_⟩
  · simp [explain_ExecutorStart, sampling_draw, cfg_rate1, MAX_RANDOM_VALUE,
      initial_current_query_sampled]
  · rw [sampling_draw]; norm_num [cfg_rate1, MAX_RANDOM_VALUE]

/-- C3: with `sample_rate = 0.0` and logging enabled, no top-level
`explain_ExecutorStart` sets `current_query_sampled`, for every possible
draw of `random()`. -/
theorem sample_rate_zero_never_samples (cfg : AEConfig) (r : Nat)
    (sampled explain_only totaltime_present : Bool) (io : Nat)
    (h0 : cfg.sample_rate = 0) (hmin : 0 ≤ cfg.log_min_duration) :
    (explain_ExecutorStart cfg 0 sampled r explain_only io
        totaltime_present).current_query_sampled = false := by
  simp [explain_ExecutorStart, sampling_draw, h0, hmin]

/-- C4: an `explain_ExecutorStart` at nesting depth greater than zero leaves
`current_query_sampled` unchanged, and consequently any sequence of nested
Start invocations observes exactly the flag decided for the top-level
statement — nested statements never make an independent sampling decision. -/
theorem nested_start_preserves_sampled_flag (cfg : AEConfig) (nesting_level : Int)
    (h : 0 < nesting_level) (flag : Bool) (r : Nat) (explain_only : Bool)
    (io : Nat) (totaltime_present : Bool) (calls : List StartCall)
    (hcalls : ∀ c ∈ calls, 0 < c.depth) :
    (explain_ExecutorStart cfg nesting_level flag r explain_only io
        totaltime_present).current_query_sampled = flag ∧
    nested_starts_flag cfg flag calls = flag :=
  ⟨start_at_positive_depth_keeps_flag cfg nesting_level h flag r explain_only io
      totaltime_present,
   nested_starts_flag_const cfg flag calls hcalls⟩

/-- C5: with `log_nested_statements = false` and nesting depth greater than
zero, `auto_explain_enabled()` is false, `explain_ExecutorStart` activates no
instrumentation flags and allocates no `totaltime`, and `explain_ExecutorEnd`
emits no report, regardless of elapsed time or sampling outcome. -/
theorem nested_statement_never_logged (cfg : AEConfig) (nesting_level : Int)
    (hnest : cfg.log_nested_statements = false) (hd : 0 < nesting_level)
    (flag : Bool) (r : Nat) (explain_only : Bool) (io : Nat)
    (totaltime_present : Bool) (total : ℚ) (rendered : List Char) :
    auto_explain_enabled cfg nesting_level = false ∧
    (explain_ExecutorStart cfg nesting_level flag r explain_only io
        totaltime_present).instrument_options = io ∧
    (explain_ExecutorStart cfg nesting_level flag r explain_only io
        totaltime_present).totaltime_allocated = false ∧
    explain_ExecutorEnd cfg nesting_level flag totaltime_present total io
      rendered = none := by
  have hn0 : nesting_level ≠ 0 := by omega
  have hen : auto_explain_enabled cfg nesting_level = false := by
    simp [auto_explain_enabled, hnest, hn0]
  refine ⟨hen, ?_, ?_, ?_⟩
  · simp [explain_ExecutorStart, hen]
  · simp [explain_ExecutorStart, hen]
  · simp [explain_ExecutorEnd, hen]

/-- C6: the duration gate at lines 341-342 is inclusive: with
`log_min_duration = 100`, elapsed 99.999 ms (total = 99999/1000000 s)
produces no report, elapsed exactly 100.000 ms (total = 1/10 s) produces
one, and in general a report exists exactly when
`msec >= log_min_duration`. -/
theorem duration_gate_boundary (cfg : AEConfig) (nesting_level : Int) (io : Nat)
    (rendered : List Char) (hmin : cfg.log_min_duration = 100)
    (hen : auto_explain_enabled cfg nesting_level = true) :
    explain_ExecutorEnd cfg nesting_level true true (99999/1000000) io
      rendered = none ∧
    (explain_ExecutorEnd cfg nesting_level true true (1/10) io
      rendered).isSome = true ∧
    ∀ total : ℚ,
      (explain_ExecutorEnd cfg nesting_level true true total io
          rendered).isSome = decide ((cfg.log_min_duration : ℚ) ≤ total * 1000) := by
  refine ⟨?_, ?_, ?_⟩
  · have hlt : ¬ ((cfg.log_min_duration : ℚ) ≤ 99999/1000000 * 1000) := by
      rw [hmin]; norm_num
    simp [explain_ExecutorEnd, hen, hlt]
  · simp [explain_ExecutorEnd, hen]
    rw [hmin]; norm_num
  · intro total
    by_cases hP : (cfg.log_min_duration : ℚ) ≤ total * 1000
    · simp [explain_ExecutorEnd, hen, hP]
    · simp [explain_ExecutorEnd, hen, hP]

/-- C7: when a report is emitted with JSON format and the rendered buffer
begins with a bracket and ends with a closing bracket followed by a single
newline, the emitted plan text begins with an opening brace, ends with a
closing brace, and has no trailing newline. -/
theorem json_report_braces (cfg : AEConfig) (nesting_level : Int) (flag : Bool)
    (total : ℚ) (io : Nat) (rendered : List Char) (rep : Report)
    (hfmt : cfg.log_format = ExplainFormat.json)
    (hhead : rendered.head? = some '[')
    (hlast : rendered.getLast? = some '\n')
    (hprev : rendered.dropLast.getLast? = some ']')
    (hemit : explain_ExecutorEnd cfg nesting_level flag true total io
        rendered = some rep) :
    rep.plan_text.head? = some '{' ∧ rep.plan_text.getLast? = some '}' ∧
    rep.plan_text.getLast? ≠ some '\n' := by
  obtain ⟨-, -, hpt⟩ := explain_ExecutorEnd_some_elim cfg nesting_level flag true
    total io rendered rep hemit
  rw [hfmt, if_pos rfl] at hpt
  have hrne : rendered ≠ [] := by
    intro hnil; rw [hnil] at hlast; exact absurd hlast (by simp)
  have htrim : trim_last_newline rendered = rendered.dropLast := by
    rw [trim_last_newline, if_pos ⟨List.length_pos.mpr hrne, hlast⟩]
  rw [htrim] at hpt
  have htne : rendered.dropLast ≠ [] := by
    intro hnil; rw [hnil] at hprev; exact absurd hprev (by simp)
  have htlen : 0 < rendered.dropLast.length := List.length_pos.mpr htne
  have hdl : rendered.dropLast.length = rendered.length - 1 :=
    List.length_dropLast rendered
  have hthead : rendered.dropLast.head? = some '[' := by
    rw [List.head?_eq_getElem?] at hhead ⊢
    rw [List.getElem?_dropLast, if_pos (by omega)]
    exact hhead
  have ht2 : 2 ≤ rendered.dropLast.length := by
    by_contra hlt
    have h1 : rendered.dropLast.length = 1 := by omega
    have heq : rendered.dropLast.getLast? = rendered.dropLast.head? := by
      rw [List.getLast?_eq_getElem?, List.head?_eq_getElem?, h1]
    rw [heq, hthead] at hprev
    exact absurd hprev (by decide)
  refine ⟨?_, ?_, ?_⟩
  · rw [hpt, json_brace_fixup, List.head?_eq_getElem?,
      List.getElem?_set, if_neg (by omega : ¬ rendered.dropLast.length - 1 = 0),
      List.getElem?_set, if_pos rfl, if_pos (by omega)]
  · rw [hpt, json_brace_fixup, List.getLast?_eq_getElem?,
      List.length_set, List.length_set,
      List.getElem?_set, if_pos rfl, if_pos (by rw [List.length_set]; omega)]
  · rw [hpt, json_brace_fixup, List.getLast?_eq_getElem?,
      List.length_set, List.length_set,
      List.getElem?_set, if_pos rfl, if_pos (by rw [List.length_set]; omega)]
    decide

/-- C8: every emitted report's options satisfy
`analyze = (instrument_options != 0) AND log_analyze`,
`verbose = log_verbose`, `buffers = analyze AND log_buffers`,
`timing = analyze AND log_timing`, `summary = analyze`,
`format = log_format`; in particular with `log_analyze = false` the
analyze/buffers/timing/summary options are all false. -/
theorem report_options_formula (cfg : AEConfig) (nesting_level : Int)
    (flag : Bool) (total : ℚ) (io : Nat) (rendered : List Char) (rep : Report)
    (hemit : explain_ExecutorEnd cfg nesting_level flag true total io
        rendered = some rep) :
    rep.es.analyze = (decide (io ≠ 0) && cfg.log_analyze) ∧
    rep.es.verbose = cfg.log_verbose ∧
    rep.es.buffers = (rep.es.analyze && cfg.log_buffers) ∧
    rep.es.timing = (rep.es.analyze && cfg.log_timing) ∧
    rep.es.summary = rep.es.analyze ∧
    rep.es.format = cfg.log_format ∧
    (cfg.log_analyze = false →
      rep.es.analyze = false ∧ rep.es.buffers = false ∧
      rep.es.timing = false ∧ rep.es.summary = false) := by
  obtain ⟨-, hes, -⟩ := explain_ExecutorEnd_some_elim cfg nesting_level flag true
    total io rendered rep hemit
  rw [hes]
  refine ⟨rfl, rfl, rfl, rfl, rfl, rfl, fun hla => ?_⟩
  simp [build_explain_options, hla]

/-- C9: loading then unloading the extension is a round trip on the four
global hook slots: `_PG_init` captures each slot's prior value (possibly
NULL) and installs this extension's handler in each slot, and `_PG_fini`
restores each of the four slots to exactly the captured value. -/
theorem load_unload_restores_hooks {α : Type} (h : AEHandlers α)
    (g : HookSlots α) :
    PG_fini (PG_init h g).2 = g ∧
    (PG_init h g).1 =
      ⟨some h.hStart, some h.hRun, some h.hFinish, some h.hEnd⟩ :=
  ⟨rfl, rfl⟩

/-- C10: `current_query_sampled` starts out true, an
`explain_ExecutorStart` with logging disabled (`log_min_duration < 0`)
leaves it unchanged at any depth, and a later `explain_ExecutorEnd` under an
enabled configuration (with `totaltime` present and the duration gate met)
emits exactly when that stale (or initial) flag value is true. -/
theorem disabled_start_keeps_stale_sampled_flag (cfgOff cfgOn : AEConfig)
    (nesting_level : Int) (flag : Bool) (r : Nat) (explain_only : Bool)
    (io io2 : Nat) (totaltime_present : Bool) (total : ℚ)
    (rendered : List Char)
    (hoff : cfgOff.log_min_duration < 0)
    (hon : 0 ≤ cfgOn.log_min_duration)
    (hms : (cfgOn.log_min_duration : ℚ) ≤ total * 1000) :
    initial_current_query_sampled = true ∧
    (explain_ExecutorStart cfgOff nesting_level flag r explain_only io
        totaltime_present).current_query_sampled = flag ∧
    (explain_ExecutorEnd cfgOn 0 flag true total io2 rendered).isSome = flag := by
  refine ⟨rfl, ?_, ?_⟩
  · have hne : ¬ (0 ≤ cfgOff.log_min_duration ∧ nesting_level = 0) := by
      rintro ⟨hle, -⟩; omega
    simp [explain_ExecutorStart, hne]
  · cases flag <;>
      simp [explain_ExecutorEnd, auto_explain_enabled, hon, hms]

/- Witnesses: each claim theorem with a propositional hypothesis applied at
a concrete input. -/

/-- Witness for C3 at a concrete configuration and draw. -/
theorem sample_rate_zero_never_samples_witness :
    (explain_ExecutorStart cfg_rate0 0 true 12345 false 0
        false).current_query_sampled = false :=
  sample_rate_zero_never_samples cfg_rate0 12345 true false false 0 rfl (by decide)

/-- Witness for C4 at depth 1 and a two-call nested sequence. -/
theorem nested_start_preserves_sampled_flag_witness :
    (explain_ExecutorStart cfg_on 1 false 999 false 0
        false).current_query_sampled = false ∧
    nested_starts_flag cfg_on false
      [⟨1, 5, false, 0, false⟩, ⟨2, 7, true, 3, true⟩] = false :=
  nested_start_preserves_sampled_flag cfg_on 1 (by decide) false 999 false 0
    false [⟨1, 5, false, 0, false⟩, ⟨2, 7, true, 3, true⟩] (by decide)

/-- Witness for C5 at depth 1 with a 10-second elapsed time. -/
theorem nested_statement_never_logged_witness :
    auto_explain_enabled cfg_nested_off 1 = false ∧
    (explain_ExecutorStart cfg_nested_off 1 true 0 false 5
        true).instrument_options = 5 ∧
    (explain_ExecutorStart cfg_nested_off 1 true 0 false 5
        true).totaltime_allocated = false ∧
    explain_ExecutorEnd cfg_nested_off 1 true true 10 5 ['x'] = none :=
  nested_statement_never_logged cfg_nested_off 1 rfl (by decide) true 0 false 5
    true 10 ['x']

/-- Witness for C6 at the concrete 100 ms configuration. -/
theorem duration_gate_boundary_witness :
    explain_ExecutorEnd cfg_min100 0 true true (99999/1000000) 0 [] = none ∧
    (explain_ExecutorEnd cfg_min100 0 true true (1/10) 0 []).isSome = true := by
  have h := duration_gate_boundary cfg_min100 0 0 [] rfl (by decide)
  exact ⟨h.1, h.2.1⟩

/-- Witness for C7 at the concrete JSON configuration with renderer output
`"[]\n"`. -/
theorem json_report_braces_witness :
    rep_json.plan_text.head? = some '{' ∧
    rep_json.plan_text.getLast? = some '}' ∧
    rep_json.plan_text.getLast? ≠ some '\n' :=
  json_report_braces cfg_json 0 true 1 0 ['[', ']', '\n'] rep_json rfl rfl rfl
    rfl
    (by norm_num [explain_ExecutorEnd, auto_explain_enabled, cfg_json,
      build_explain_options, trim_last_newline, json_brace_fixup, rep_json])

/-- Witness for C8 at the concrete JSON configuration with a non-zero
instrumentation bitmask. -/
theorem report_options_formula_witness :
    rep_analyze.es.analyze = (decide ((1 : Nat) ≠ 0) && cfg_json.log_analyze) ∧
    rep_analyze.es.verbose = cfg_json.log_verbose ∧
    rep_analyze.es.buffers = (rep_analyze.es.analyze && cfg_json.log_buffers) ∧
    rep_analyze.es.timing = (rep_analyze.es.analyze && cfg_json.log_timing) ∧
    rep_analyze.es.summary = rep_analyze.es.analyze ∧
    rep_analyze.es.format = cfg_json.log_format ∧
    (cfg_json.log_analyze = false →
      rep_analyze.es.analyze = false ∧ rep_analyze.es.buffers = false ∧
      rep_analyze.es.timing = false ∧ rep_analyze.es.summary = false) :=
  report_options_formula cfg_json 0 true 1 1 ['[', ']', '\n'] rep_analyze
    (by norm_num [explain_ExecutorEnd, auto_explain_enabled, cfg_json,
      build_explain_options, trim_last_newline, json_brace_fixup, rep_analyze])

/-- Witness for C10: a Start under the disabled configuration keeps the
initial true flag, and an End under the enabled configuration then emits. -/
theorem disabled_start_keeps_stale_sampled_flag_witness :
    initial_current_query_sampled = true ∧
    (explain_ExecutorStart cfg_off 0 true 0 false 0
        false).current_query_sampled = true ∧
    (explain_ExecutorEnd cfg_on 0 true true 1 0 []).isSome = true :=
  disabled_start_keeps_stale_sampled_flag cfg_off cfg_on 0 true 0 false 0 0
    false 1 [] (by decide) (by decide) (by norm_num [cfg_on])

end AutoExplain
